import Mathlib

/-!
Verification development for the `proposal-search` repository
(`src/main.py`, `src/config.py`): a Slack events webhook that verifies
request signatures, de-duplicates event deliveries, extracts a question
from an app-mention, queries a Gemini backend, and posts a formatted
reply.

The Python source is shallowly embedded below.  External collaborators
(the `hmac`/`hashlib` HMAC-SHA256 hex digest, the Slack WebClient calls,
and the Gemini `generate_content` calls) are modelled as parameters /
per-request oracles describing their outcomes; everything the repository
itself computes is translated directly from the source.  Python
exceptions are modelled explicitly (`Except`, or explicit error
constructors in the dispatcher's result type); machine integers do not
occur (Python ints are unbounded, so `Int`/`Nat` are exact models).
-/

/-! ## Models of Python string primitives used by the source -/

/-- Python whitespace characters recognised by `str.strip()` (the ASCII
ones; the source only ever strips ASCII/Korean text, where these are the
only whitespace characters that occur). -/
def isPySpace (c : Char) : Bool :=
  c == ' ' || c == '\t' || c == '\n' || c == '\r' || c == '\x0b' || c == '\x0c'

/-- `str.strip()` on a list of characters: drop leading and trailing
whitespace. -/
def pyStripList (cs : List Char) : List Char :=
  ((cs.dropWhile isPySpace).reverse.dropWhile isPySpace).reverse

/-- Python `str.strip()`. -/
def pyStrip (s : String) : String :=
  ⟨pyStripList s.data⟩

/-- Numeric value of a list of decimal digit characters. -/
def digitsToNat (ds : List Char) : Nat :=
  ds.foldl (fun a c => a * 10 + (c.toNat - 48)) 0

/-- Python `int(s)` on a string: strips whitespace, accepts an optional
sign followed by a nonempty run of decimal digits; every other string
raises `ValueError`, modelled as `none`.  (PEP 515 underscore grouping
is not modelled; no claim involves it.) -/
def pyIntOfString (s : String) : Option Int :=
  match pyStripList s.data with
  | [] => none
  | '+' :: ds =>
    if !ds.isEmpty && ds.all Char.isDigit then some (Int.ofNat (digitsToNat ds)) else none
  | '-' :: ds =>
    if !ds.isEmpty && ds.all Char.isDigit then some (-(Int.ofNat (digitsToNat ds))) else none
  | ds =>
    if ds.all Char.isDigit then some (Int.ofNat (digitsToNat ds)) else none

/-- Python `"a,b".split(",")` on a list of characters. -/
def splitOnComma : List Char → List (List Char)
  | [] => [[]]
  | ',' :: rest => [] :: splitOnComma rest
  | c :: rest =>
    match splitOnComma rest with
    | [] => [[c]]
    | g :: gs => (c :: g) :: gs

/-- `src/config.py` `_parse_csv_env`: the list of non-empty, trimmed
values of a comma-separated string (the environment-variable lookup
itself is an external collaborator; this is the parsing the repository
performs on its value). -/
def _parse_csv_env (raw : String) : List String :=
  ((splitOnComma raw.data).map (fun cs => pyStrip ⟨cs⟩)).filter (fun s => s ≠ "")

/-- Python `a or b` for two optional strings, as used for
`event.get("thread_ts") or event.get("ts")`: `None` and `""` are falsy. -/
def pyOrStr (a b : Option String) : Option String :=
  match a with
  | some s => if s = "" then b else some s
  | none => b

/-- Python `str.lower()` (ASCII case mapping; the configured keywords and
message texts in the spec's examples are ASCII or Korean, where this
coincides with Python's Unicode lowering). -/
def pyLower (s : String) : String :=
  ⟨s.data.map Char.toLower⟩

/-- Substring containment test on character lists (Python `needle in hay`). -/
def containsSub : List Char → List Char → Bool
  | [], needle => needle.isEmpty
  | c :: t, needle => needle.isPrefixOf (c :: t) || containsSub t needle

/-- Python `"\n".join(l)`. -/
def joinWithNewline : List String → String
  | [] => ""
  | [s] => s
  | s :: rest => s ++ "\n" ++ joinWithNewline rest

/-! ## Signature Verifier (`src/main.py` lines 71-88) -/

/-- The two Slack headers read by `verify_slack_signature`; a missing
header is `none` (Python `request.headers.get(..., "")` then defaults it
to `""`). -/
structure Headers where
  xSlackSignature : Option String
  xSlackRequestTimestamp : Option String
deriving DecidableEq

/-- The HMAC base string `f"v0:{slack_request_timestamp}:{body}"`
(line 81; the raw body bytes are modelled as their UTF-8 decoding,
which is what the source interpolates). -/
def sig_basestring (slack_request_timestamp body : String) : String :=
  "v0:" ++ slack_request_timestamp ++ ":" ++ body

/-- `verify_slack_signature` (lines 71-88).  `hmacSha256Hex secret msg`
is the external `hmac.new(secret, msg, sha256).hexdigest()` collaborator.
`now` is `time.time()` in whole seconds.  `int()` on a non-numeric
timestamp header raises `ValueError` (modelled as `.error`);
`hmac.compare_digest` on strings is equality (up to timing). -/
def verify_slack_signature (hmacSha256Hex : String → String → String)
    (secret : String) (now : Int) (headers : Headers) (body : String) :
    Except String Bool :=
  let slack_signature := headers.xSlackSignature.getD ""
  let slack_request_timestamp := headers.xSlackRequestTimestamp.getD ""
  match pyIntOfString slack_request_timestamp with
  | none => .error "ValueError"
  | some ts =>
    if (now - ts).natAbs > 60 * 5 then
      .ok false
    else
      let my_signature := "v0=" ++ hmacSha256Hex secret (sig_basestring slack_request_timestamp body)
      .ok (my_signature == slack_signature)

/-! ## Query Mediator (`src/main.py` lines 91-161) -/

/-- `chunk.retrieved_context` as read by `query_proposal_store`:
`title` is optional (`getattr(ctx, 'title', 'Unknown')`). -/
structure RetrievedContext where
  title : Option String
deriving DecidableEq

/-- A grounding chunk; `retrieved_context` may be absent (`hasattr` check). -/
structure GroundingChunk where
  retrieved_context : Option RetrievedContext
deriving DecidableEq

/-- Grounding metadata; `grounding_chunks` may be absent. -/
structure GroundingMetadata where
  grounding_chunks : Option (List GroundingChunk)
deriving DecidableEq

/-- A response candidate; `grounding_metadata` may be absent. -/
structure Candidate where
  grounding_metadata : Option GroundingMetadata
deriving DecidableEq

/-- A successful `generate_content` response: `response.text` and the
candidate list (`hasattr(response, 'candidates') and response.candidates`
is modelled by the list being nonempty). -/
structure GenResponse where
  text : String
  candidates : List Candidate
deriving DecidableEq

/-- Outcome of one external `generate_content` call: a response, or a
raised exception carrying `str(e)`. -/
inductive BackendResult
  | ok (r : GenResponse)
  | exn (msg : String)
deriving DecidableEq

/-- One backend call made by the mediator, recorded for the call trace:
the grounded call passes the question directly; the fallback passes the
wrapped non-grounded prompt. -/
inductive BackendCall
  | grounded (prompt : String)
  | plain (prompt : String)
deriving DecidableEq

/-- Python `list(set(...))` where elements were added in list order:
de-duplication keeping first occurrences.  (CPython's set iteration
order is unspecified; this fixes one deterministic order.  No claim
depends on the order.) -/
def pySetToListAux (seen : List String) : List String → List String
  | [] => []
  | x :: xs =>
    if seen.contains x then pySetToListAux seen xs
    else x :: pySetToListAux (x :: seen) xs

/-- Materialise the source-title set as a list, in insertion order. -/
def pySetToList (l : List String) : List String :=
  pySetToListAux [] l

/-- Source-title extraction of `query_proposal_store` (lines 112-125):
first candidate's grounding metadata, chunks with a `retrieved_context`,
their titles defaulted to `"Unknown"`, collected into a set. -/
def extract_sources (resp : GenResponse) : List String :=
  match resp.candidates with
  | [] => []
  | candidate :: _ =>
    match candidate.grounding_metadata with
    | none => []
    | some metadata =>
      match metadata.grounding_chunks with
      | none => []
      | some chunks =>
        pySetToList (chunks.filterMap
          (fun chunk => chunk.retrieved_context.map (fun ctx => ctx.title.getD "Unknown")))

/-- The non-grounded fallback prompt built by `query_without_file_search`
(lines 147-152): the f-string literal with its leading newline and
8-space indentation. -/
def full_prompt (question : String) : String :=
  "\n        다음 질문에 대해 제안서 데이터베이스를 검색한 것처럼 답변해주세요.\n        만약 실제 데이터가 없다면, \"제안서 데이터베이스에서 관련 내용을 찾을 수 없습니다\"라고 답변하세요.\n        \n        질문: " ++ question ++ "\n        "

/-- `query_without_file_search` (lines 135-161), with its backend call
trace.  On success the source list is the empty list; on exception the
answer is the user-facing error string and the source list is empty. -/
def query_without_file_search (fallbackRes : BackendResult) (question : String) :
    (String × List String) × List BackendCall :=
  match fallbackRes with
  | .ok r => ((r.text, []), [.plain (full_prompt question)])
  | .exn e => (("오류가 발생했습니다: " ++ e, []), [.plain (full_prompt question)])

/-- `query_proposal_store` (lines 91-132), with its backend call trace:
grounded call first; any exception falls back to
`query_without_file_search`.  Totality of this definition is the
"never raises" contract: every oracle outcome maps to a returned value. -/
def query_proposal_store (groundedRes fallbackRes : BackendResult) (question : String) :
    (String × List String) × List BackendCall :=
  match groundedRes with
  | .ok r => ((r.text, extract_sources r), [.grounded question])
  | .exn _ =>
    let fb := query_without_file_search fallbackRes question
    (fb.1, .grounded question :: fb.2)

/-! ## Reply Formatter (`src/main.py` lines 164-197) -/

/-- A Slack Block Kit block as built by `format_slack_message`: an
`mrkdwn` section with its text, or a divider. -/
inductive Block
  | sectionBlock (text : String)
  | divider
deriving DecidableEq

/-- `format_slack_message` (lines 164-197).  The returned value models
the `"blocks"` list of the produced payload. -/
def format_slack_message (answer : String) (sources : List String) (question : String) :
    List Block :=
  let blocks := [Block.sectionBlock ("*질문:* " ++ question),
                 Block.divider,
                 Block.sectionBlock ("*답변:*\n" ++ answer)]
  if sources.isEmpty then blocks
  else
    let source_text := joinWithNewline ((sources.take 5).map (fun source => "• " ++ source))
    blocks ++ [Block.sectionBlock ("*참조 문서:*\n" ++ source_text)]

/-! ## Mention extraction (`src/main.py` lines 200-204) -/

/-- A character matched by `[A-Z0-9]` in the mention pattern. -/
def isMentionIdChar (c : Char) : Bool :=
  (decide ('A' ≤ c) && decide (c ≤ 'Z')) || (decide ('0' ≤ c) && decide (c ≤ '9'))

/-- Try to match the remainder `[A-Z0-9]+>` of the mention pattern
`<@[A-Z0-9]+>` at the head of `cs` (which follows a `<@`); returns the
input after the match.  The greedy `[A-Z0-9]+` cannot backtrack usefully
because `>` is not in the character class, so taking the maximal run is
exact. -/
def matchMention (cs : List Char) : Option (List Char) :=
  let run := cs.takeWhile isMentionIdChar
  let rest := cs.dropWhile isMentionIdChar
  if run.isEmpty then none
  else
    match rest with
    | '>' :: rest2 => some rest2
    | _ => none

/-- `re.sub(r'<@[A-Z0-9]+>', '', text)` scanning left to right, removing
every (leftmost, non-overlapping) match.  Fuel-indexed so that the
definition is structural and kernel-evaluable; each step consumes at
least one input character, so `length + 1` fuel always suffices. -/
def removeMentionsAux : Nat → List Char → List Char
  | 0, cs => cs
  | _ + 1, [] => []
  | fuel + 1, '<' :: '@' :: cs =>
    (match matchMention cs with
     | some rest => removeMentionsAux fuel rest
     | none => '<' :: removeMentionsAux fuel ('@' :: cs))
  | fuel + 1, c :: cs => c :: removeMentionsAux fuel cs

/-- All `<@[A-Z0-9]+>` matches removed from `cs`. -/
def removeMentions (cs : List Char) : List Char :=
  removeMentionsAux (cs.length + 1) cs

/-- `extract_query_from_mention` (lines 200-204): remove every mention
token, then strip whitespace. -/
def extract_query_from_mention (text : String) : String :=
  pyStrip ⟨removeMentions text.data⟩

/-- Modelled from the spec's words, for the refinement comparison with
`extract_query_from_mention`: "stripping the leading mention token (an
at-reference enclosed in angle brackets, e.g. `<@ID>`) and trimming
whitespace" — only a mention token at the very start is removed. -/
def extract_query_spec (text : String) : String :=
  match text.data with
  | '<' :: '@' :: cs =>
    (match matchMention cs with
     | some rest => pyStrip ⟨rest⟩
     | none => pyStrip text)
  | _ => pyStrip text

/-! ## Event Dispatcher (`src/main.py` lines 207-300) -/

/-- Outcome of one external Slack WebClient call (`chat_postMessage` /
`chat_delete`): success carrying the result needed by the source (the
message `ts` for posts), a raised `SlackApiError` carrying
`e.response['error']`, or another raised exception carrying `str(e)`. -/
inductive CallResult (α : Type)
  | ok (a : α)
  | apiError (e : String)
  | exn (e : String)
deriving DecidableEq

/-- True when the call succeeded. -/
def CallResult.isOk : CallResult α → Bool
  | .ok _ => true
  | _ => false

/-- Per-request oracle for the external collaborators: outcome of each
Slack call site the handler can reach (`usageHintPost` line 251,
`placeholderPost` line 260, `deleteRes` line 273, `finalPost` line 279,
`errorPost` lines 287/294) and of the two Gemini calls. -/
structure SlackEnv where
  usageHintPost : CallResult String
  placeholderPost : CallResult String
  deleteRes : CallResult Unit
  finalPost : CallResult String
  errorPost : CallResult String
  groundedRes : BackendResult
  fallbackRes : BackendResult
deriving DecidableEq

/-- The inner `event` object, fields read via `.get` (absent = `none`). -/
structure EventData where
  type : Option String
  channel : Option String
  text : Option String
  ts : Option String
  thread_ts : Option String
deriving DecidableEq

/-- `data.get("event", {})` default. -/
def emptyEvent : EventData :=
  ⟨none, none, none, none, none⟩

/-- The parsed JSON envelope, fields read via `.get`. -/
structure PayloadData where
  type : Option String
  challenge : Option String
  event_id : Option String
  event : Option EventData
deriving DecidableEq

/-- One inbound POST request: headers, raw body, and the result of
`json.loads(body)` (`none` models a raised `JSONDecodeError`). -/
structure SlackRequest where
  headers : Headers
  body : String
  payload : Option PayloadData
deriving DecidableEq

/-- Startup configuration read by `src/main.py`: the signing secret and
`ALLOWED_CHANNELS` (a set built from `config.ALLOWED_CHANNELS`). -/
structure Config where
  signingSecret : String
  allowedChannels : List String
deriving DecidableEq

/-- Which post-message call site an outbound text message came from. -/
inductive PostKind
  | usageHint
  | placeholder
  | errorReply
deriving DecidableEq

/-- An externally visible action attempted by the handler, in order:
text posts, the formatted final reply (the only blocks post), the
placeholder delete, and backend calls. -/
inductive Effect
  | postText (kind : PostKind) (channel thread_ts : Option String) (text : String)
  | postBlocks (channel thread_ts : Option String) (blocks : List Block)
  | deleteMsg (channel : Option String) (ts : String)
  | backend (call : BackendCall)
deriving DecidableEq

/-- How one request resolves at the HTTP boundary: a 200 body
(`{"status": "ok"}` or the challenge echo), the 403 of
`HTTPException(status_code=403)`, or an exception escaping the handler
(FastAPI then answers 500). -/
inductive HandlerResult
  | ok
  | challenge (c : Option String)
  | http403
  | error (msg : String)
deriving DecidableEq

/-- The usage-hint text of line 254. -/
def usage_hint_text : String :=
  "질문을 입력해주세요. 예: @B2B Research Bot 제안서에서 AI 관련 내용 찾아줘"

/-- The placeholder text of line 263. -/
def processing_text : String :=
  "🤔 제안서를 검색하고 있습니다..."

/-- The error-reply text of lines 290/297 (`e.response['error']` for a
`SlackApiError`, `str(e)` otherwise; both are the carried message here). -/
def error_reply_text (e : String) : String :=
  "❌ 오류가 발생했습니다: " ++ e

/-- The `except` blocks of lines 285-298: log, then post a best-effort
error reply in the same thread.  The reply call itself is NOT inside any
`try`, so its failure escapes the handler. -/
def error_reply (env : SlackEnv) (channel thread_ts : Option String) (e : String)
    (effs : List Effect) : HandlerResult × List Effect :=
  let eff := Effect.postText PostKind.errorReply channel thread_ts (error_reply_text e)
  match env.errorPost with
  | .ok _ => (HandlerResult.ok, effs ++ [eff])
  | .apiError e2 => (HandlerResult.error e2, effs ++ [eff])
  | .exn e2 => (HandlerResult.error e2, effs ++ [eff])

/-- The `try` block of lines 258-298: placeholder post, backend query,
formatting, placeholder delete, final reply; `SlackApiError` and generic
exceptions from any of these are routed to the error reply. -/
def process_mention (env : SlackEnv) (channel thread_ts : Option String)
    (question : String) : HandlerResult × List Effect :=
  let placeholderEff := Effect.postText PostKind.placeholder channel thread_ts processing_text
  match env.placeholderPost with
  | .apiError e => error_reply env channel thread_ts e [placeholderEff]
  | .exn e => error_reply env channel thread_ts e [placeholderEff]
  | .ok processing_ts =>
    let q := query_proposal_store env.groundedRes env.fallbackRes question
    let answer := q.1.1
    let sources := q.1.2
    let formatted_msg := format_slack_message answer sources question
    let effs1 := placeholderEff :: q.2.map Effect.backend
    let deleteEff := Effect.deleteMsg channel processing_ts
    match env.deleteRes with
    | .apiError e => error_reply env channel thread_ts e (effs1 ++ [deleteEff])
    | .exn e => error_reply env channel thread_ts e (effs1 ++ [deleteEff])
    | .ok _ =>
      let finalEff := Effect.postBlocks channel thread_ts formatted_msg
      match env.finalPost with
      | .apiError e => error_reply env channel thread_ts e (effs1 ++ [deleteEff, finalEff])
      | .exn e => error_reply env channel thread_ts e (effs1 ++ [deleteEff, finalEff])
      | .ok _ => (HandlerResult.ok, effs1 ++ [deleteEff, finalEff])

/-- Membership of the (possibly absent) channel in `ALLOWED_CHANNELS`
(`None not in set_of_strings` is true in Python). -/
def channelMem (channel : Option String) (allowed : List String) : Bool :=
  match channel with
  | some c => allowed.contains c
  | none => false

/-- The `app_mention` branch (lines 237-298): channel allow-list check,
thread anchor, query extraction, usage hint on an empty query, otherwise
the processing stage.  The usage-hint post (line 251) is NOT inside any
`try`: its failure escapes the handler. -/
def handle_app_mention (cfg : Config) (env : SlackEnv) (event : EventData) :
    HandlerResult × List Effect :=
  let channel := event.channel
  if cfg.allowedChannels ≠ [] ∧ channelMem channel cfg.allowedChannels = false then
    (HandlerResult.ok, [])
  else
    let thread_ts := pyOrStr event.thread_ts event.ts
    let text := event.text.getD ""
    let question := extract_query_from_mention text
    if question = "" then
      let eff := Effect.postText PostKind.usageHint channel thread_ts usage_hint_text
      match env.usageHintPost with
      | .ok _ => (HandlerResult.ok, [eff])
      | .apiError e => (HandlerResult.error e, [eff])
      | .exn e => (HandlerResult.error e, [eff])
    else
      process_mention env channel thread_ts question

/-- The `event_callback` branch (lines 227-298): duplicate check against
the processed-event registry (which records the id BEFORE any trigger or
channel check), then the `app_mention` branch. -/
def handle_event_callback (cfg : Config) (env : SlackEnv)
    (processed : List (Option String)) (data : PayloadData) :
    List (Option String) × HandlerResult × List Effect :=
  let event := data.event.getD emptyEvent
  let event_id := data.event_id
  if event_id ∈ processed then
    (processed, HandlerResult.ok, [])
  else
    let processed2 := event_id :: processed
    if event.type = some "app_mention" then
      let r := handle_app_mention cfg env event
      (processed2, r.1, r.2)
    else
      (processed2, HandlerResult.ok, [])

/-- `slack_events` (lines 207-300) for one request: JSON parse, the
url_verification handshake (answered BEFORE signature verification),
signature verification (403 on `False`, escaping `ValueError` on a bad
timestamp header), then the event dispatch.  Returns the registry after
the request, the HTTP-boundary outcome, and the attempted effects. -/
def dispatch (hmacSha256Hex : String → String → String) (cfg : Config) (env : SlackEnv)
    (now : Int) (processed : List (Option String)) (req : SlackRequest) :
    List (Option String) × HandlerResult × List Effect :=
  match req.payload with
  | none => (processed, HandlerResult.error "JSONDecodeError", [])
  | some data =>
    if data.type = some "url_verification" then
      (processed, HandlerResult.challenge data.challenge, [])
    else
      match verify_slack_signature hmacSha256Hex cfg.signingSecret now req.headers req.body with
      | .error e => (processed, HandlerResult.error e, [])
      | .ok false => (processed, HandlerResult.http403, [])
      | .ok true =>
        if data.type = some "event_callback" then
          handle_event_callback cfg env processed data
        else
          (processed, HandlerResult.ok, [])

/-- A sequential run of the dispatcher over a list of requests (each with
its own collaborator oracle), threading the processed-event registry and
collecting each request's attempted effects. -/
def runEvents (hmacSha256Hex : String → String → String) (cfg : Config) (now : Int)
    (processed : List (Option String)) :
    List (SlackRequest × SlackEnv) → List (SlackRequest × List Effect)
  | [] => []
  | (req, env) :: rest =>
    (req, (dispatch hmacSha256Hex cfg env now processed req).2.2) ::
      runEvents hmacSha256Hex cfg now (dispatch hmacSha256Hex cfg env now processed req).1 rest

/-- The final outbound reply is the only blocks post. -/
def isFinalReply : Effect → Bool
  | .postBlocks _ _ _ => true
  | _ => false

/-- Number of final-reply attempts among a request's effects. -/
def nFinalReplies (effs : List Effect) : Nat :=
  (effs.filter isFinalReply).length

/-- The event id a request carries, when its body parses. -/
def reqEventId (req : SlackRequest) : Option (Option String) :=
  req.payload.map (fun d => d.event_id)

/-- Total number of final replies attributable to event id `eid` in a
run's trace. -/
def finalRepliesFor (eid : Option String) (trace : List (SlackRequest × List Effect)) : Nat :=
  (trace.map (fun p => if reqEventId p.1 = some eid then nFinalReplies p.2 else 0)).sum

/-- A 200-style response at the HTTP boundary. -/
def is200 : HandlerResult → Bool
  | .ok => true
  | .challenge _ => true
  | _ => false

/-! ## Duplicate-check concurrency models (`src/main.py` lines 232-234)

The registry code is two statements: a membership test
(`if event_id in processed_events: return ...`) and a separate insert
(`processed_events.add(event_id)`).  Two models of two handlers racing
on the same event id: a fine-grained one in which the test and the
insert are separately schedulable steps (the granularity at which the
code is written), and a coarse one in which each handler's test-and-insert
pair runs as one atomic step (what the single-threaded asyncio event
loop guarantees, since no `await` lies between lines 232 and 234). -/

/-- Progress of one handler task through the duplicate check. -/
inductive Phase
  | start
  | passed
  | blocked
  | inserted
deriving DecidableEq

/-- Shared registry plus the two tasks' phases. -/
structure DedupState where
  reg : List String
  t0 : Phase
  t1 : Phase
deriving DecidableEq

/-- Both tasks at the membership test, registry as given. -/
def initDedup (reg : List String) : DedupState :=
  ⟨reg, Phase.start, Phase.start⟩

/-- One task's next fine-grained step: the membership test (line 232),
then, if it passed, the insert (line 234). -/
def fineStepTask (eid : String) (reg : List String) : Phase → List String × Phase
  | .start => if reg.contains eid then (reg, .blocked) else (reg, .passed)
  | .passed => (eid :: reg, .inserted)
  | p => (reg, p)

/-- Run one fine-grained step of task `false` (task 0) or `true` (task 1). -/
def fineStep (eid : String) (s : DedupState) (i : Bool) : DedupState :=
  if i then
    let r := fineStepTask eid s.reg s.t1
    ⟨r.1, s.t0, r.2⟩
  else
    let r := fineStepTask eid s.reg s.t0
    ⟨r.1, r.2, s.t1⟩

/-- Run a schedule (a list of task choices) of fine-grained steps. -/
def fineRun (eid : String) (sched : List Bool) (s : DedupState) : DedupState :=
  sched.foldl (fineStep eid) s

/-- One task's step in the coarse (asyncio) model: the membership test
and, if it found the id absent, the insert, as a single atomic step. -/
def coarseStepTask (eid : String) (reg : List String) : Phase → List String × Phase
  | .start => if reg.contains eid then (reg, .blocked) else (eid :: reg, .inserted)
  | p => (reg, p)

/-- Run one coarse step of task `false` (task 0) or `true` (task 1). -/
def coarseStep (eid : String) (s : DedupState) (i : Bool) : DedupState :=
  if i then
    let r := coarseStepTask eid s.reg s.t1
    ⟨r.1, s.t0, r.2⟩
  else
    let r := coarseStepTask eid s.reg s.t0
    ⟨r.1, r.2, s.t1⟩

/-- Run a schedule of coarse steps. -/
def coarseRun (eid : String) (sched : List Bool) (s : DedupState) : DedupState :=
  sched.foldl (coarseStep eid) s

/-- A task accepted the event: its membership test found the id absent. -/
def hasAccepted : Phase → Bool
  | .passed => true
  | .inserted => true
  | _ => false

/-- Both concurrent deliveries passed the duplicate check. -/
def bothAccepted (s : DedupState) : Bool :=
  hasAccepted s.t0 && hasAccepted s.t1

/-! ## Passive-listen trigger variant (spec §4.3)

Modelled from the spec: `src/` contains only this variant's
configuration (`src/config.py` lines 22-24, `AUTO_REPLY_CHANNELS` and
`BOT_TRIGGER_KEYWORDS`); the dispatch code that consumes those keys is
not part of `src/main.py` (which only handles `app_mention` events). -/

/-- Modelled from the spec: the passive-listen trigger — respond when
(a) the message is not authored by a bot identity, (b) the channel is in
the auto-reply channel set (or that set is empty, meaning all channels
qualify), and (c) the lower-cased message text contains at least one
configured trigger keyword as a substring. -/
def should_respond_passive (auto_reply_channels trigger_keywords : List String)
    (sender_is_bot : Bool) (channel : String) (text : String) : Bool :=
  !sender_is_bot &&
    (auto_reply_channels.isEmpty || auto_reply_channels.contains channel) &&
    trigger_keywords.any (fun k => containsSub (pyLower text).data k.data)

/-! ## Concrete fixtures for closed instances -/

/-- A constant stand-in for the external HMAC hex digest. -/
def hmacConst : String → String → String := fun _ _ => "h"

/-- A configuration with secret `"s"` and allow-list `["C1"]`. -/
def cfgFix : Config := ⟨"s", ["C1"]⟩

/-- A backend response with no grounding metadata. -/
def genOkResp : GenResponse := ⟨"answer text", []⟩

/-- Collaborator oracle: every call succeeds. -/
def envAllOk : SlackEnv :=
  ⟨.ok "u", .ok "p", .ok (), .ok "f", .ok "e", .ok genOkResp, .ok genOkResp⟩

/-- Collaborator oracle: the usage-hint post raises a `SlackApiError`. -/
def envUsageFail : SlackEnv :=
  ⟨.apiError "channel_not_found", .ok "p", .ok (), .ok "f", .ok "e", .exn "g", .exn "fb"⟩

/-- Collaborator oracle: the final reply fails, the error reply succeeds. -/
def envFinalFail : SlackEnv :=
  ⟨.ok "u", .ok "p", .ok (), .apiError "rate_limited", .ok "e", .exn "g", .exn "fb"⟩

/-- Collaborator oracle: the final reply fails AND the best-effort error
reply also fails. -/
def envDoubleFail : SlackEnv :=
  ⟨.ok "u", .ok "p", .ok (), .apiError "rate_limited", .apiError "again", .exn "g", .exn "fb"⟩

/-- Headers that verify against `hmacConst` with secret `"s"` at `now = 0`. -/
def goodHeaders : Headers := ⟨some "v0=h", some "0"⟩

/-- Headers with the timestamp header absent. -/
def noTsHeaders : Headers := ⟨some "v0=h", none⟩

/-- An `app_mention` event in channel `"C1"`. -/
def mentionEvent (text : String) : EventData :=
  ⟨some "app_mention", some "C1", some text, some "1.0", none⟩

/-- A well-signed `event_callback` request carrying an `app_mention`. -/
def eventReq (eid : String) (text : String) : SlackRequest :=
  ⟨goodHeaders, "b", some ⟨some "event_callback", none, some eid, some (mentionEvent text)⟩⟩

/-- The same request but with no timestamp header. -/
def eventReqNoTs (eid : String) (text : String) : SlackRequest :=
  ⟨noTsHeaders, "b", some ⟨some "event_callback", none, some eid, some (mentionEvent text)⟩⟩

/-! ## Theorems -/

/-- C1: for a request whose timestamp header parses as an integer `n`,
`verify_slack_signature` returns `true` iff `|now - n| ≤ 300` seconds and
the signature header equals `"v0="` followed by the HMAC-SHA256 hex
digest, keyed by the secret, of `"v0:" + timestamp + ":" + body`
(compared by `hmac.compare_digest`, i.e. equality); in particular for
any timestamp outside the ±300-second window it returns `false`
regardless of the signature. -/
theorem verify_signature_iff_fresh_and_match
    (hmacSha256Hex : String → String → String) (secret : String) (now : Int)
    (headers : Headers) (body : String) (t : String) (n : Int)
    (ht : headers.xSlackRequestTimestamp = some t)
    (hn : pyIntOfString t = some n) :
    (verify_slack_signature hmacSha256Hex secret now headers body = .ok true ↔
      ((now - n).natAbs ≤ 300 ∧
        headers.xSlackSignature.getD "" =
          "v0=" ++ hmacSha256Hex secret (sig_basestring t body))) ∧
    ((now - n).natAbs > 300 →
      verify_slack_signature hmacSha256Hex secret now headers body = .ok false) := by
  have hts : headers.xSlackRequestTimestamp.getD "" = t := by rw [ht]; rfl
  constructor
  · simp only [verify_slack_signature, hts, hn]
    by_cases hw : (now - n).natAbs > 60 * 5
    · simp [hw]
    · simp [hw]
      constructor
      · intro h
        exact ⟨by omega, h.symm⟩
      · intro h
        exact h.2.symm
  · intro hw
    have hw5 : (now - n).natAbs > 60 * 5 := by omega
    simp only [verify_slack_signature, hts, hn]
    simp [hw5]

/-- Witness for C1 at a concrete fresh, matching request. -/
theorem verify_signature_iff_fresh_and_match_witness :
    verify_slack_signature hmacConst "s" 0 goodHeaders "b" = .ok true := by
  have h := verify_signature_iff_fresh_and_match hmacConst "s" 0 goodHeaders "b" "0" 0
    (by decide) (by decide)
  exact h.1.mpr ⟨by decide, by decide⟩

/-- C10: when the timestamp header is absent or not a decimal integer
string, `verify_slack_signature` raises `ValueError` from `int()` instead
of returning `false`, and the handler escapes with that exception rather
than taking the documented 403 authorization-failure path. -/
theorem verify_raises_on_bad_timestamp
    (hmacSha256Hex : String → String → String) (cfg : Config) (env : SlackEnv)
    (now : Int) (processed : List (Option String)) (req : SlackRequest) (d : PayloadData)
    (hp : req.payload = some d)
    (hnv : d.type ≠ some "url_verification")
    (hbad : pyIntOfString (req.headers.xSlackRequestTimestamp.getD "") = none) :
    verify_slack_signature hmacSha256Hex cfg.signingSecret now req.headers req.body =
      .error "ValueError" ∧
    dispatch hmacSha256Hex cfg env now processed req =
      (processed, HandlerResult.error "ValueError", []) ∧
    (dispatch hmacSha256Hex cfg env now processed req).2.1 ≠ HandlerResult.http403 := by
  have hv : verify_slack_signature hmacSha256Hex cfg.signingSecret now req.headers req.body =
      .error "ValueError" := by
    simp only [verify_slack_signature, hbad]
  have hd : dispatch hmacSha256Hex cfg env now processed req =
      (processed, HandlerResult.error "ValueError", []) := by
    unfold dispatch
    rw [hp]
    simp [hnv, hv]
  exact ⟨hv, hd, by rw [hd]; simp⟩

/-- Witness for C10: an event-callback request with the timestamp header
absent escapes with `ValueError`. -/
theorem verify_raises_on_bad_timestamp_witness :
    dispatch hmacConst cfgFix envAllOk 0 [] (eventReqNoTs "E1" "<@U123> hi") =
      ([], HandlerResult.error "ValueError", []) :=
  (verify_raises_on_bad_timestamp hmacConst cfgFix envAllOk 0 []
    (eventReqNoTs "E1" "<@U123> hi") ⟨some "event_callback", none, some "E1",
      some (mentionEvent "<@U123> hi")⟩ rfl (by decide) (by decide)).2.1

/-- C3: `query_proposal_store` is total over every backend outcome
("never raises": the return type has no error component); when the
grounded call fails it makes exactly one more call, with the non-grounded
fallback prompt, and its sources list is empty; when the fallback also
fails the answer is the user-facing error string and the sources list is
empty; a successful grounded call makes no retry. -/
theorem query_proposal_store_failure_contract
    (question : String) (groundedRes fallbackRes : BackendResult) :
    (∀ e, groundedRes = .exn e →
      (query_proposal_store groundedRes fallbackRes question).2 =
        [BackendCall.grounded question, BackendCall.plain (full_prompt question)] ∧
      (query_proposal_store groundedRes fallbackRes question).1.2 = []) ∧
    (∀ e e2, groundedRes = .exn e → fallbackRes = .exn e2 →
      (query_proposal_store groundedRes fallbackRes question).1 =
        ("오류가 발생했습니다: " ++ e2, [])) ∧
    (∀ r, groundedRes = .ok r →
      (query_proposal_store groundedRes fallbackRes question).2 =
        [BackendCall.grounded question]) := by
  refine ⟨?_, ?_, ?_⟩
  · rintro e rfl
    cases fallbackRes <;> simp [query_proposal_store, query_without_file_search]
  · rintro e e2 rfl rfl
    simp [query_proposal_store, query_without_file_search]
  · rintro r rfl
    simp [query_proposal_store]

/-- Witness for C3: both calls fail; the result is the error string with
empty sources after exactly the grounded call and one fallback call. -/
theorem query_proposal_store_failure_contract_witness :
    (query_proposal_store (.exn "boom") (.exn "boom2") "q").1 =
      ("오류가 발생했습니다: boom2", []) :=
  (query_proposal_store_failure_contract "q" (.exn "boom") (.exn "boom2")).2.1
    "boom" "boom2" rfl rfl

/-- C6: the formatted message is, in order, the original question, a
divider, the answer text, and — exactly when the source list is
non-empty — one bulleted source section listing the first `min 5 n`
titles (never a 6th); on the spec's six-document example the rendered
section lists `Doc A` through `Doc E` only. -/
theorem format_slack_message_sections
    (answer : String) (sources : List String) (question : String) :
    format_slack_message answer sources question =
      [Block.sectionBlock ("*질문:* " ++ question), Block.divider,
       Block.sectionBlock ("*답변:*\n" ++ answer)] ++
      (if sources.isEmpty then []
       else [Block.sectionBlock ("*참조 문서:*\n" ++
         joinWithNewline ((sources.take 5).map (fun source => "• " ++ source)))]) ∧
    (sources.take 5).length ≤ 5 ∧
    (sources.take 5).length = min 5 sources.length ∧
    format_slack_message "42" ["Doc A", "Doc B", "Doc C", "Doc D", "Doc E", "Doc F"]
        question =
      [Block.sectionBlock ("*질문:* " ++ question), Block.divider,
       Block.sectionBlock "*답변:*\n42",
       Block.sectionBlock "*참조 문서:*\n• Doc A\n• Doc B\n• Doc C\n• Doc D\n• Doc E"] := by
  refine ⟨?_, ?_, ?_, ?_⟩
  · unfold format_slack_message
    cases sources <;> simp
  · simp [List.length_take]
  · simp [List.length_take]
  · rfl

/-- `containsSub` decides list-infix containment (Python `in`). -/
theorem containsSub_iff_infix (hay needle : List Char) :
    containsSub hay needle = true ↔ needle <:+: hay := by
  induction hay with
  | nil =>
    simp [containsSub, List.isEmpty_iff]
  | cons c t ih =>
    simp only [containsSub, Bool.or_eq_true, ih, List.infix_cons_iff]
    constructor
    · rintro (h | h)
      · exact Or.inl (List.isPrefixOf_iff_prefix.mp h)
      · exact Or.inr h
    · rintro (h | h)
      · exact Or.inl (List.isPrefixOf_iff_prefix.mpr h)
      · exact Or.inr h

/-- C4 (modelled from the spec, §4.3 passive-listen variant; `src/`
holds only its configuration keys): the trigger fires iff the sender is
not a bot, the auto-reply channel set is empty or contains the channel,
and the lower-cased text has a configured keyword as a substring; with
allow-list `["C1"]` and keywords `["proposal"]`, `"need a Proposal
draft"` triggers in `"C1"` and not in `"C2"`; the default keyword
configuration string parses to `["제안서", "proposal"]`. -/
theorem passive_listen_trigger
    (auto_reply_channels trigger_keywords : List String) (sender_is_bot : Bool)
    (channel text : String) :
    (should_respond_passive auto_reply_channels trigger_keywords sender_is_bot channel text
        = true ↔
      (sender_is_bot = false ∧
       (auto_reply_channels = [] ∨ channel ∈ auto_reply_channels) ∧
       ∃ k ∈ trigger_keywords, k.data <:+: (pyLower text).data)) ∧
    should_respond_passive ["C1"] ["proposal"] false "C1" "need a Proposal draft" = true ∧
    should_respond_passive ["C1"] ["proposal"] false "C2" "need a Proposal draft" = false ∧
    _parse_csv_env "제안서,proposal" = ["제안서", "proposal"] := by
  refine ⟨?_, by decide, by decide, by decide⟩
  simp only [should_respond_passive, Bool.and_eq_true, Bool.or_eq_true, Bool.not_eq_true',
    List.any_eq_true, List.isEmpty_iff, List.elem_iff, containsSub_iff_infix]
  tauto

/-- C5 counterexample: the claim says the query is obtained by stripping
the LEADING mention token and trimming; on `"hi <@U123>"` (whose mention
token is not leading) the code removes the token anyway, while the
spec's leading-only rule leaves the text unchanged. -/
theorem extract_query_not_leading_only :
    extract_query_from_mention "hi <@U123>" = "hi" ∧
    extract_query_spec "hi <@U123>" = "hi <@U123>" ∧
    extract_query_from_mention "hi <@U123>" ≠ extract_query_spec "hi <@U123>" := by
  refine ⟨by decide, by decide, by decide⟩

/-- C5 (amended): the query text is obtained by removing EVERY mention
token (`<@ID>` with an uppercase-alphanumeric id) wherever it occurs and
trimming whitespace — so `"<@U123> find AI proposals"` yields
`"find AI proposals"` — and whenever the remaining text is empty the
`app_mention` branch posts only the usage-hint reply in the thread and
makes no backend call and no other outbound message. -/
theorem mention_query_extraction_and_usage_hint
    (cfg : Config) (env : SlackEnv) (event : EventData)
    (hch : cfg.allowedChannels = [] ∨ channelMem event.channel cfg.allowedChannels = true)
    (hq : extract_query_from_mention (event.text.getD "") = "") :
    (handle_app_mention cfg env event).2 =
      [Effect.postText PostKind.usageHint event.channel
        (pyOrStr event.thread_ts event.ts) usage_hint_text] ∧
    (∀ c, Effect.backend c ∉ (handle_app_mention cfg env event).2) ∧
    (∀ ch tts blocks, Effect.postBlocks ch tts blocks ∉ (handle_app_mention cfg env event).2) ∧
    (env.usageHintPost.isOk = true → (handle_app_mention cfg env event).1 = HandlerResult.ok) ∧
    extract_query_from_mention "<@U123> find AI proposals" = "find AI proposals" ∧
    extract_query_from_mention "hi <@U123> and <@U456> bye" = "hi  and  bye" := by
  have hcond : ¬(cfg.allowedChannels ≠ [] ∧ channelMem event.channel cfg.allowedChannels = false) := by
    rcases hch with h | h <;> simp [h]
  have hmain : handle_app_mention cfg env event =
      (match env.usageHintPost with
       | .ok _ => (HandlerResult.ok,
           [Effect.postText PostKind.usageHint event.channel
             (pyOrStr event.thread_ts event.ts) usage_hint_text])
       | .apiError e => (HandlerResult.error e,
           [Effect.postText PostKind.usageHint event.channel
             (pyOrStr event.thread_ts event.ts) usage_hint_text])
       | .exn e => (HandlerResult.error e,
           [Effect.postText PostKind.usageHint event.channel
             (pyOrStr event.thread_ts event.ts) usage_hint_text])) := by
    simp only [handle_app_mention, if_neg hcond, hq, if_pos rfl, ite_true]
  refine ⟨?_, ?_, ?_, ?_, by decide, by decide⟩
  · rw [hmain]
    cases env.usageHintPost <;> rfl
  · intro c
    rw [hmain]
    cases env.usageHintPost <;> simp
  · intro ch tts blocks
    rw [hmain]
    cases env.usageHintPost <;> simp
  · intro hok
    rw [hmain]
    cases h : env.usageHintPost <;> simp_all [CallResult.isOk]

/-- Witness for C5 (amended): a mention-only message in an allowed
channel yields exactly the usage-hint post. -/
theorem mention_query_extraction_and_usage_hint_witness :
    (handle_app_mention cfgFix envAllOk (mentionEvent "<@U123>")).2 =
      [Effect.postText PostKind.usageHint (some "C1") (some "1.0") usage_hint_text] := by
  have h := mention_query_extraction_and_usage_hint cfgFix envAllOk (mentionEvent "<@U123>")
    (Or.inr (by decide)) (by decide)
  exact h.1

/-- Backend-call effects are never final replies. -/
theorem backend_effects_no_final (calls : List BackendCall) :
    (calls.map Effect.backend).filter isFinalReply = [] := by
  induction calls with
  | nil => rfl
  | cons c cs ih => simp [isFinalReply, ih]

/-- The error reply adds no final reply to the trace. -/
theorem filter_final_error_reply (env : SlackEnv) (ch tts : Option String) (e : String)
    (effs : List Effect) :
    (error_reply env ch tts e effs).2.filter isFinalReply = effs.filter isFinalReply := by
  unfold error_reply
  cases env.errorPost <;> simp [isFinalReply, List.filter_append]

/-- The processing stage attempts at most one final reply. -/
theorem nFinal_process_mention (env : SlackEnv) (ch tts : Option String) (q : String) :
    nFinalReplies (process_mention env ch tts q).2 ≤ 1 := by
  unfold process_mention nFinalReplies
  cases env.placeholderPost with
  | apiError e => simp [filter_final_error_reply, isFinalReply]
  | exn e => simp [filter_final_error_reply, isFinalReply]
  | ok pts =>
    cases env.deleteRes <;> cases env.finalPost <;>
      simp [filter_final_error_reply, isFinalReply, List.filter_append,
        List.filter_cons, backend_effects_no_final]

/-- The `app_mention` branch attempts at most one final reply. -/
theorem nFinal_handle_app_mention (cfg : Config) (env : SlackEnv) (event : EventData) :
    nFinalReplies (handle_app_mention cfg env event).2 ≤ 1 := by
  by_cases h1 : cfg.allowedChannels ≠ [] ∧ channelMem event.channel cfg.allowedChannels = false
  · simp [handle_app_mention, h1, nFinalReplies]
  · by_cases h2 : extract_query_from_mention (event.text.getD "") = ""
    · cases hu : env.usageHintPost <;>
        simp [handle_app_mention, h1, h2, hu, nFinalReplies, isFinalReply]
    · have := nFinal_process_mention env event.channel (pyOrStr event.thread_ts event.ts)
        (extract_query_from_mention (event.text.getD ""))
      simpa [handle_app_mention, h1, h2] using this

/-- A single dispatch attempts at most one final reply. -/
theorem nFinal_dispatch (h : String → String → String) (cfg : Config) (env : SlackEnv)
    (now : Int) (processed : List (Option String)) (req : SlackRequest) :
    nFinalReplies (dispatch h cfg env now processed req).2.2 ≤ 1 := by
  cases hpl : req.payload with
  | none => simp [dispatch, hpl, nFinalReplies]
  | some data =>
    by_cases hurl : data.type = some "url_verification"
    · simp [dispatch, hpl, hurl, nFinalReplies]
    · cases hv : verify_slack_signature h cfg.signingSecret now req.headers req.body with
      | error e => simp [dispatch, hpl, hurl, hv, nFinalReplies]
      | ok b =>
        cases b with
        | false => simp [dispatch, hpl, hurl, hv, nFinalReplies]
        | true =>
          by_cases hec : data.type = some "event_callback"
          · by_cases hdup : data.event_id ∈ processed
            · simp [dispatch, hpl, hurl, hv, hec, handle_event_callback, hdup, nFinalReplies]
            · by_cases hm : (data.event.getD emptyEvent).type = some "app_mention"
              · have := nFinal_handle_app_mention cfg env (data.event.getD emptyEvent)
                simpa [dispatch, hpl, hurl, hv, hec, handle_event_callback, hdup, hm] using this
              · simp [dispatch, hpl, hurl, hv, hec, handle_event_callback, hdup, hm,
                  nFinalReplies]
          · simp [dispatch, hpl, hurl, hv, hec, nFinalReplies]

/-- A dispatch of a request whose event id is already in the registry
attempts no effect at all. -/
theorem dispatch_dup_no_effects (h : String → String → String) (cfg : Config)
    (env : SlackEnv) (now : Int) (processed : List (Option String)) (req : SlackRequest)
    (d : PayloadData) (hp : req.payload = some d)
    (hc : d.event_id ∈ processed) :
    (dispatch h cfg env now processed req).2.2 = [] := by
  by_cases hurl : d.type = some "url_verification"
  · simp [dispatch, hp, hurl]
  · cases hv : verify_slack_signature h cfg.signingSecret now req.headers req.body with
    | error e => simp [dispatch, hp, hurl, hv]
    | ok b =>
      cases b with
      | false => simp [dispatch, hp, hurl, hv]
      | true =>
        by_cases hec : d.type = some "event_callback"
        · simp [dispatch, hp, hurl, hv, hec, handle_event_callback, hc]
        · simp [dispatch, hp, hurl, hv, hec]

/-- Either a dispatch leaves the registry unchanged and attempts nothing,
or its request carries a fresh event id which the dispatch records. -/
theorem dispatch_cases (h : String → String → String) (cfg : Config) (env : SlackEnv)
    (now : Int) (processed : List (Option String)) (req : SlackRequest) :
    ((dispatch h cfg env now processed req).1 = processed ∧
     (dispatch h cfg env now processed req).2.2 = []) ∨
    (∃ d, req.payload = some d ∧ d.event_id ∉ processed ∧
      (dispatch h cfg env now processed req).1 = d.event_id :: processed) := by
  cases hpl : req.payload with
  | none => exact Or.inl (by simp [dispatch, hpl])
  | some data =>
    by_cases hurl : data.type = some "url_verification"
    · exact Or.inl (by simp [dispatch, hpl, hurl])
    · cases hv : verify_slack_signature h cfg.signingSecret now req.headers req.body with
      | error e => exact Or.inl (by simp [dispatch, hpl, hurl, hv])
      | ok b =>
        cases b with
        | false => exact Or.inl (by simp [dispatch, hpl, hurl, hv])
        | true =>
          by_cases hec : data.type = some "event_callback"
          · by_cases hdup : data.event_id ∈ processed
            · exact Or.inl
                (by simp [dispatch, hpl, hurl, hv, hec, handle_event_callback, hdup])
            · refine Or.inr ⟨data, rfl, hdup, ?_⟩
              by_cases hm : (data.event.getD emptyEvent).type = some "app_mention" <;>
                simp [dispatch, hpl, hurl, hv, hec, handle_event_callback, hdup, hm]
          · exact Or.inl (by simp [dispatch, hpl, hurl, hv, hec])

/-- Dispatch only grows the registry. -/
theorem dispatch_mem_mono (h : String → String → String) (cfg : Config)
    (env : SlackEnv) (now : Int) (processed : List (Option String)) (req : SlackRequest)
    (x : Option String) (hx : x ∈ processed) :
    x ∈ (dispatch h cfg env now processed req).1 := by
  rcases dispatch_cases h cfg env now processed req with ⟨hs, _⟩ | ⟨d, _, _, hs⟩
  · rw [hs]; exact hx
  · rw [hs]; exact List.mem_cons_of_mem _ hx

/-- Run-level invariant: if the registry already holds `eid` no final
reply for `eid` is produced by the rest of the run, and in any case at
most one is. -/
theorem run_final_replies (h : String → String → String) (cfg : Config) (now : Int)
    (eid : Option String) :
    ∀ (reqs : List (SlackRequest × SlackEnv)) (processed : List (Option String)),
      (eid ∈ processed →
        finalRepliesFor eid (runEvents h cfg now processed reqs) = 0) ∧
      finalRepliesFor eid (runEvents h cfg now processed reqs) ≤ 1 := by
  intro reqs
  induction reqs with
  | nil =>
    intro processed
    exact ⟨fun _ => rfl, by simp [runEvents, finalRepliesFor]⟩
  | cons p rest ih =>
    intro processed
    obtain ⟨req, env⟩ := p
    have hcons : finalRepliesFor eid (runEvents h cfg now processed ((req, env) :: rest)) =
        (if reqEventId req = some eid
          then nFinalReplies (dispatch h cfg env now processed req).2.2 else 0) +
        finalRepliesFor eid
          (runEvents h cfg now (dispatch h cfg env now processed req).1 rest) := by
      simp [runEvents, finalRepliesFor, nFinalReplies]
    constructor
    · intro hc
      rw [hcons]
      have h1 : (if reqEventId req = some eid
          then nFinalReplies (dispatch h cfg env now processed req).2.2 else 0) = 0 := by
        by_cases hid : reqEventId req = some eid
        · obtain ⟨d, hd, hdid⟩ : ∃ d, req.payload = some d ∧ d.event_id = eid := by
            cases hpl : req.payload with
            | none => rw [reqEventId, hpl] at hid; cases hid
            | some d =>
              refine ⟨d, rfl, ?_⟩
              rw [reqEventId, hpl] at hid
              exact Option.some.inj hid
          have heff := dispatch_dup_no_effects h cfg env now processed req d hd
            (by rw [hdid]; exact hc)
          simp [hid, nFinalReplies, heff]
        · simp [hid]
      rw [h1, Nat.zero_add]
      exact (ih (dispatch h cfg env now processed req).1).1
        (dispatch_mem_mono h cfg env now processed req eid hc)
    · rw [hcons]
      by_cases hid : reqEventId req = some eid
      · by_cases hz : nFinalReplies (dispatch h cfg env now processed req).2.2 = 0
        · rw [if_pos hid, hz, Nat.zero_add]
          exact (ih _).2
        · rcases dispatch_cases h cfg env now processed req with ⟨_, heff⟩ | ⟨d, hd, hfresh, hstate⟩
          · exact absurd (by simp [nFinalReplies, heff]) hz
          · have hdid : d.event_id = eid := by
              rw [reqEventId, hd] at hid
              exact Option.some.inj hid
            have hrest : finalRepliesFor eid
                (runEvents h cfg now (dispatch h cfg env now processed req).1 rest) = 0 := by
              apply (ih _).1
              rw [hstate, hdid]
              exact List.mem_cons_self eid processed
            have hhead := nFinal_dispatch h cfg env now processed req
            rw [if_pos hid, hrest]
            omega
      · rw [if_neg hid, Nat.zero_add]
        exact (ih _).2

/-- C2: over any sequential run of the dispatcher starting from an empty
registry, at most one final outbound reply is produced for any event id;
a dispatch of an `event_callback` whose id is already registered returns
the plain acknowledgment with no backend call and no outbound message
and leaves the registry unchanged; and a first occurrence records the id
in the registry. -/
theorem at_most_one_final_reply_per_event_id
    (h : String → String → String) (cfg : Config) (now : Int) (eid : Option String) :
    (∀ reqs, finalRepliesFor eid (runEvents h cfg now [] reqs) ≤ 1) ∧
    (∀ env processed req d, req.payload = some d → d.event_id = eid →
      d.type = some "event_callback" →
      verify_slack_signature h cfg.signingSecret now req.headers req.body = .ok true →
      eid ∈ processed →
      dispatch h cfg env now processed req = (processed, HandlerResult.ok, [])) ∧
    (∀ env processed req d, req.payload = some d → d.event_id = eid →
      d.type = some "event_callback" →
      verify_slack_signature h cfg.signingSecret now req.headers req.body = .ok true →
      eid ∉ processed →
      (dispatch h cfg env now processed req).1 = eid :: processed) := by
  refine ⟨fun reqs => (run_final_replies h cfg now eid reqs []).2, ?_, ?_⟩
  · intro env processed req d hp hdid htype hv hc
    have hurl : ¬ d.type = some "url_verification" := by rw [htype]; simp
    simp [dispatch, hp, hurl, hv, htype, handle_event_callback, hdid, hc]
  · intro env processed req d hp hdid htype hv hc
    have hurl : ¬ d.type = some "url_verification" := by rw [htype]; simp
    subst hdid
    by_cases hm : (d.event.getD emptyEvent).type = some "app_mention" <;>
      simp [dispatch, hp, hurl, hv, htype, handle_event_callback, hc, hm]

/-- Witness for C2: a duplicate delivery of an already-registered id is
acknowledged with no effects. -/
theorem at_most_one_final_reply_per_event_id_witness :
    dispatch hmacConst cfgFix envAllOk 0 [some "E1"] (eventReq "E1" "<@U123> hi") =
      ([some "E1"], HandlerResult.ok, []) :=
  (at_most_one_final_reply_per_event_id hmacConst cfgFix 0 (some "E1")).2.1
    envAllOk [some "E1"] (eventReq "E1" "<@U123> hi")
    ⟨some "event_callback", none, some "E1", some (mentionEvent "<@U123> hi")⟩
    rfl rfl rfl (by rfl) (by decide)

/-- When the best-effort error reply succeeds, the except blocks resolve
to the 200 acknowledgment. -/
theorem error_reply_ok (env : SlackEnv) (ch tts : Option String) (e : String)
    (effs : List Effect) (he : env.errorPost.isOk = true) :
    (error_reply env ch tts e effs).1 = HandlerResult.ok := by
  unfold error_reply
  cases h : env.errorPost <;> simp_all [CallResult.isOk]

/-- When the best-effort error reply succeeds, the processing stage
always falls through to the 200 acknowledgment. -/
theorem process_mention_ok (env : SlackEnv) (ch tts : Option String) (q : String)
    (he : env.errorPost.isOk = true) :
    (process_mention env ch tts q).1 = HandlerResult.ok := by
  unfold process_mention
  cases env.placeholderPost with
  | apiError e => exact error_reply_ok env ch tts e _ he
  | exn e => exact error_reply_ok env ch tts e _ he
  | ok pts =>
    cases env.deleteRes with
    | apiError e => exact error_reply_ok env ch tts e _ he
    | exn e => exact error_reply_ok env ch tts e _ he
    | ok u =>
      cases env.finalPost with
      | apiError e => exact error_reply_ok env ch tts e _ he
      | exn e => exact error_reply_ok env ch tts e _ he
      | ok f => rfl

/-- When the usage-hint post and the error reply succeed, the
`app_mention` branch resolves to the 200 acknowledgment. -/
theorem handle_app_mention_ok (cfg : Config) (env : SlackEnv) (event : EventData)
    (hu : env.usageHintPost.isOk = true) (he : env.errorPost.isOk = true) :
    (handle_app_mention cfg env event).1 = HandlerResult.ok := by
  by_cases h1 : cfg.allowedChannels ≠ [] ∧ channelMem event.channel cfg.allowedChannels = false
  · simp [handle_app_mention, h1]
  · by_cases h2 : extract_query_from_mention (event.text.getD "") = ""
    · cases hup : env.usageHintPost with
      | ok a => simp [handle_app_mention, h1, h2, hup]
      | apiError e => rw [hup] at hu; simp [CallResult.isOk] at hu
      | exn e => rw [hup] at hu; simp [CallResult.isOk] at hu
    · have := process_mention_ok env event.channel (pyOrStr event.thread_ts event.ts)
        (extract_query_from_mention (event.text.getD "")) he
      simpa [handle_app_mention, h1, h2] using this

/-- C7 (amended): a request that parses and passes signature verification
(or is the url_verification handshake) resolves to a 200-style body
regardless of duplicate events, non-trigger events, backend failures, or
messaging failures inside the protected processing block — PROVIDED the
two unprotected outbound calls (the usage-hint post and the best-effort
error reply) succeed; a failure of either of those escapes the handler
as a non-200 response. -/
theorem verified_requests_resolve_200
    (h : String → String → String) (cfg : Config) (env : SlackEnv) (now : Int)
    (processed : List (Option String)) (req : SlackRequest) (d : PayloadData)
    (hp : req.payload = some d)
    (hv : d.type = some "url_verification" ∨
      verify_slack_signature h cfg.signingSecret now req.headers req.body = .ok true)
    (hu : env.usageHintPost.isOk = true)
    (he : env.errorPost.isOk = true) :
    is200 (dispatch h cfg env now processed req).2.1 = true := by
  by_cases hurl : d.type = some "url_verification"
  · simp [dispatch, hp, hurl, is200]
  · have hvt : verify_slack_signature h cfg.signingSecret now req.headers req.body =
        .ok true := hv.resolve_left hurl
    by_cases hec : d.type = some "event_callback"
    · by_cases hdup : d.event_id ∈ processed
      · simp [dispatch, hp, hurl, hvt, hec, handle_event_callback, hdup, is200]
      · by_cases hm : (d.event.getD emptyEvent).type = some "app_mention"
        · have := handle_app_mention_ok cfg env (d.event.getD emptyEvent) hu he
          simp [dispatch, hp, hurl, hvt, hec, handle_event_callback, hdup, hm, is200, this]
        · simp [dispatch, hp, hurl, hvt, hec, handle_event_callback, hdup, hm, is200]
    · simp [dispatch, hp, hurl, hvt, hec, is200]

/-- Witness for C7 (amended): a verified mention request with all
collaborator calls succeeding resolves to 200. -/
theorem verified_requests_resolve_200_witness :
    is200 (dispatch hmacConst cfgFix envAllOk 0 [] (eventReq "E1" "<@U123> hi")).2.1 =
      true :=
  verified_requests_resolve_200 hmacConst cfgFix envAllOk 0 [] (eventReq "E1" "<@U123> hi")
    ⟨some "event_callback", none, some "E1", some (mentionEvent "<@U123> hi")⟩
    rfl (Or.inr (by rfl)) (by decide) (by decide)

/-- C7 counterexample: a request that passes signature verification can
still resolve to a non-200 outcome — an empty-query mention whose
usage-hint post fails escapes the handler as an unhandled exception
(FastAPI answers 500), neither a 403 nor a 200. -/
theorem verified_request_non_200_counterexample :
    verify_slack_signature hmacConst cfgFix.signingSecret 0
      (eventReq "E1" "<@U123>").headers (eventReq "E1" "<@U123>").body = .ok true ∧
    (dispatch hmacConst cfgFix envUsageFail 0 [] (eventReq "E1" "<@U123>")).2.1 =
      HandlerResult.error "channel_not_found" ∧
    is200 (HandlerResult.error "channel_not_found") = false := by
  refine ⟨by rfl, by decide, by decide⟩

/-- C8 (amended): a messaging failure inside the protected processing
block (placeholder post, placeholder delete, or final reply) is caught,
and a single best-effort error reply is attempted in the same thread
with no retry of any earlier step; when the error reply succeeds the
handler acknowledges with 200, but when the best-effort error reply
itself fails the exception escapes the dispatcher (it is NOT swallowed). -/
theorem messaging_failure_best_effort_reply
    (env : SlackEnv) (ch tts : Option String) (q : String) :
    (∀ pts e ets, env.placeholderPost = .ok pts → env.deleteRes = .ok () →
      env.finalPost = .apiError e → env.errorPost = .ok ets →
      process_mention env ch tts q =
        (HandlerResult.ok,
          Effect.postText PostKind.placeholder ch tts processing_text ::
            (query_proposal_store env.groundedRes env.fallbackRes q).2.map Effect.backend ++
            [Effect.deleteMsg ch pts,
             Effect.postBlocks ch tts
               (format_slack_message
                 (query_proposal_store env.groundedRes env.fallbackRes q).1.1
                 (query_proposal_store env.groundedRes env.fallbackRes q).1.2 q),
             Effect.postText PostKind.errorReply ch tts (error_reply_text e)])) ∧
    (∀ e ets, env.placeholderPost = .apiError e → env.errorPost = .ok ets →
      process_mention env ch tts q =
        (HandlerResult.ok,
          [Effect.postText PostKind.placeholder ch tts processing_text,
           Effect.postText PostKind.errorReply ch tts (error_reply_text e)])) ∧
    (∀ pts e ets, env.placeholderPost = .ok pts → env.deleteRes = .apiError e →
      env.errorPost = .ok ets →
      process_mention env ch tts q =
        (HandlerResult.ok,
          Effect.postText PostKind.placeholder ch tts processing_text ::
            (query_proposal_store env.groundedRes env.fallbackRes q).2.map Effect.backend ++
            [Effect.deleteMsg ch pts,
             Effect.postText PostKind.errorReply ch tts (error_reply_text e)])) ∧
    (∀ pts e e2, env.placeholderPost = .ok pts → env.deleteRes = .ok () →
      env.finalPost = .apiError e → env.errorPost = .apiError e2 →
      (process_mention env ch tts q).1 = HandlerResult.error e2) := by
  refine ⟨?_, ?_, ?_, ?_⟩
  · intro pts e ets hph hdel hfin herr
    simp [process_mention, error_reply, hph, hdel, hfin, herr]
  · intro e ets hph herr
    simp [process_mention, error_reply, hph, herr]
  · intro pts e ets hph hdel herr
    simp [process_mention, error_reply, hph, hdel, herr]
  · intro pts e e2 hph hdel hfin herr
    simp [process_mention, error_reply, hph, hdel, hfin, herr]

/-- Witness for C8 (amended): final reply fails, error reply succeeds,
the handler still acknowledges. -/
theorem messaging_failure_best_effort_reply_witness :
    (process_mention envFinalFail (some "C1") (some "1.0") "q").1 = HandlerResult.ok := by
  have h := (messaging_failure_best_effort_reply envFinalFail (some "C1") (some "1.0") "q").1
    "p" "rate_limited" "e" rfl rfl rfl rfl
  rw [h]

/-- C8 counterexample: when the best-effort error reply itself fails the
fault is NOT swallowed — it escapes the dispatcher as an unhandled
exception. -/
theorem error_reply_failure_escapes_counterexample :
    (process_mention envDoubleFail (some "C1") (some "1.0") "q").1 =
      HandlerResult.error "again" ∧
    HandlerResult.error "again" ≠ HandlerResult.ok := by
  refine ⟨by rfl, by decide⟩

/-- C9 counterexample: with the membership test and the insert modelled
as the two separately schedulable operations the source is written as
(lines 232 and 234), the schedule test₀, test₁, insert₀, insert₁ lets
BOTH concurrent deliveries of a fresh event id pass the duplicate
check — the code is a read followed by a separate write, not a single
atomic test-and-insert. -/
theorem dedup_two_step_double_accept :
    bothAccepted (fineRun "E1" [false, true, false, true] (initDedup [])) = true := by
  decide

/-- One coarse step preserves the registry invariant: never both
accepted, and any acceptance implies the id is registered. -/
theorem coarse_step_inv (eid : String) (s : DedupState) (i : Bool)
    (hinv : bothAccepted s = false ∧
      ((hasAccepted s.t0 || hasAccepted s.t1) = true → s.reg.contains eid = true)) :
    bothAccepted (coarseStep eid s i) = false ∧
      ((hasAccepted (coarseStep eid s i).t0 || hasAccepted (coarseStep eid s i).t1) = true →
        (coarseStep eid s i).reg.contains eid = true) := by
  obtain ⟨reg, t0, t1⟩ := s
  obtain ⟨hboth, hreg⟩ := hinv
  cases i with
  | true =>
    cases t1 with
    | start =>
      by_cases hc : reg.contains eid = true
      · simp_all [coarseStep, coarseStepTask, bothAccepted, hasAccepted]
      · simp_all [coarseStep, coarseStepTask, bothAccepted, hasAccepted, List.contains_cons]
    | passed => simp_all [coarseStep, coarseStepTask, bothAccepted, hasAccepted]
    | blocked => simp_all [coarseStep, coarseStepTask, bothAccepted, hasAccepted]
    | inserted => simp_all [coarseStep, coarseStepTask, bothAccepted, hasAccepted]
  | false =>
    cases t0 with
    | start =>
      by_cases hc : reg.contains eid = true
      · simp_all [coarseStep, coarseStepTask, bothAccepted, hasAccepted]
      · simp_all [coarseStep, coarseStepTask, bothAccepted, hasAccepted, List.contains_cons]
    | passed => simp_all [coarseStep, coarseStepTask, bothAccepted, hasAccepted]
    | blocked => simp_all [coarseStep, coarseStepTask, bothAccepted, hasAccepted]
    | inserted => simp_all [coarseStep, coarseStepTask, bothAccepted, hasAccepted]

/-- The invariant holds along any coarse schedule. -/
theorem coarse_run_inv (eid : String) (sched : List Bool) :
    ∀ s : DedupState,
      (bothAccepted s = false ∧
        ((hasAccepted s.t0 || hasAccepted s.t1) = true → s.reg.contains eid = true)) →
      bothAccepted (coarseRun eid sched s) = false ∧
        ((hasAccepted (coarseRun eid sched s).t0 ||
            hasAccepted (coarseRun eid sched s).t1) = true →
          (coarseRun eid sched s).reg.contains eid = true) := by
  induction sched with
  | nil => intro s hs; exact hs
  | cons i rest ih =>
    intro s hs
    exact ih (coarseStep eid s i) (coarse_step_inv eid s i hs)

/-- C9 (amended): the duplicate check is two separate operations, not an
atomic test-and-insert, but no suspension point lies between them, so
with respect to the single-threaded event loop each handler's
check-and-insert pair executes atomically; under that execution model
two concurrent deliveries of the same event id can never both pass the
duplicate check, from any initial registry. -/
theorem dedup_atomic_no_double_accept (eid : String) (sched : List Bool)
    (reg : List String) :
    bothAccepted (coarseRun eid sched (initDedup reg)) = false :=
  (coarse_run_inv eid sched (initDedup reg) ⟨rfl, by simp [initDedup, hasAccepted]⟩).1
